import Mathlib

/-!
Shallow embedding of `src/pix_generator.py` (PIX payload generator).

Python strings are modelled as Lean `String`; Python `len` on a string is the
number of code points, i.e. `String.length` (= `s.data.length`); Python slicing
`s[:n]` is `strTake`; UTF-8 encoding of a string (`s.encode('utf-8')`) is
`strBytes`, a list of byte values.  Python integers are `Nat` (the CRC register
is masked with `&&& 0xFFFF` exactly where the source masks).  The `amount`
argument (a Python number) is modelled as `ℚ`; Python's `f"{amount:.2f}"`
formatting is `formatAmount` (rounding to cents — exact for every amount used
in the development, where the value has at most two decimal places).
-/

set_option maxRecDepth 10000

/-- UTF-8 encoding of one Unicode scalar value, as the list of its byte
values (what Python's `str.encode('utf-8')` produces per character). -/
def utf8Bytes (c : Char) : List Nat :=
  let n := c.toNat
  if n < 128 then [n]
  else if n < 2048 then [192 + n / 64, 128 + n % 64]
  else if n < 65536 then [224 + n / 4096, 128 + n / 64 % 64, 128 + n % 64]
  else [240 + n / 262144, 128 + n / 4096 % 64, 128 + n / 64 % 64, 128 + n % 64]

/-- The UTF-8 byte sequence of a string: Python's `payload.encode('utf-8')`. -/
def strBytes (s : String) : List Nat := (s.data.map utf8Bytes).flatten

/-- The UTF-8 byte length of a string (`len(s.encode('utf-8'))`). -/
def utf8Len (s : String) : Nat := (strBytes s).length

/-- One iteration of the inner `for _ in range(8)` loop of `crc16_ccitt` in
`calculate_crc16`: shift left (XORing the polynomial 0x1021 when the top bit
is set), then mask to 16 bits — exactly the source's
`crc = (crc << 1) ^ 0x1021` / `crc <<= 1` followed by `crc &= 0xFFFF`. -/
def crc_shift (crc : Nat) : Nat :=
  (if crc &&& 0x8000 ≠ 0 then (crc <<< 1) ^^^ 0x1021 else crc <<< 1) &&& 0xFFFF

/-- Processing of one input byte by `crc16_ccitt`: `crc ^= byte << 8`,
then eight `crc_shift` steps. -/
def crc_byte (crc b : Nat) : Nat :=
  (List.range 8).foldl (fun c _ => crc_shift c) (crc ^^^ (b <<< 8))

/-- Function `calculate_crc16` from the source: CRC16/CCITT-FALSE over the UTF-8
bytes of `payload`, register initialised to 0xFFFF, no final XOR. -/
def calculate_crc16 (payload : String) : Nat :=
  (strBytes payload).foldl crc_byte 0xFFFF

/-- The set of code points accepted by Python's `str.isdigit`, as closed
ranges: the characters of Unicode `Numeric_Type` Decimal or Digit, taken from
the Unicode character database CPython uses.  Beyond the ASCII digits 48–57
this includes every script's decimal digits (Arabic-Indic, Devanagari, …) and
the digit-typed characters such as the superscripts 178–179 and 185. -/
def pyDigitRanges : List (Nat × Nat) :=
  [(48, 57), (178, 179), (185, 185), (1632, 1641), (1776, 1785), (1984,
   1993), (2406, 2415), (2534, 2543), (2662, 2671), (2790, 2799), (2918,
   2927), (3046, 3055), (3174, 3183), (3302, 3311), (3430, 3439), (3558,
   3567), (3664, 3673), (3792, 3801), (3872, 3881), (4160, 4169), (4240,
   4249), (4969, 4977), (6112, 6121), (6160, 6169), (6470, 6479), (6608,
   6618), (6784, 6793), (6800, 6809), (6992, 7001), (7088, 7097), (7232,
   7241), (7248, 7257), (8304, 8304), (8308, 8313), (8320, 8329), (9312,
   9320), (9332, 9340), (9352, 9360), (9450, 9450), (9461, 9469), (9471,
   9471), (10102, 10110), (10112, 10120), (10122, 10130), (42528, 42537),
   (43216, 43225), (43264, 43273), (43472, 43481), (43504, 43513), (43600,
   43609), (44016, 44025), (65296, 65305), (66720, 66729), (68160, 68163),
   (68912, 68921), (69216, 69224), (69714, 69722), (69734, 69743), (69872,
   69881), (69942, 69951), (70096, 70105), (70384, 70393), (70736, 70745),
   (70864, 70873), (71248, 71257), (71360, 71369), (71472, 71481), (71904,
   71913), (72016, 72025), (72784, 72793), (73040, 73049), (73120, 73129),
   (92768, 92777), (92864, 92873), (93008, 93017), (120782, 120831),
   (123200, 123209), (123632, 123641), (125264, 125273), (127232, 127242),
   (130032, 130041)]

/-- Python's `str.isdigit` on one code point: membership in `pyDigitRanges`. -/
def pyIsDigitNat (n : Nat) : Bool := pyDigitRanges.any (fun r => r.1 ≤ n && n ≤ r.2)

/-- Python's `str.isdigit` on one character. -/
def pyIsDigit (c : Char) : Bool := pyIsDigitNat c.toNat

/-- Function `format_cpf` from the source: join of `filter(str.isdigit, cpf)`.
Note `str.isdigit` accepts more than the ASCII decimal digits: it also keeps
other scripts' digits and digit-typed characters such as the superscript two
(see `pyDigitRanges`). -/
def format_cpf (cpf : String) : String := String.mk (cpf.data.filter pyIsDigit)

/-- Python's `f"{n:02d}"` for a natural number: pad with a leading zero to at
least two digits; numbers of three or more digits are rendered in full
(the format *never* truncates). -/
def pad2 (n : Nat) : String := if n < 10 then "0" ++ Nat.repr n else Nat.repr n

/-- Uppercase hexadecimal digit for `k < 16`. -/
def hexDigit (k : Nat) : Char := "0123456789ABCDEF".data.getD k '0'

/-- Python's `f"{n:04X}"` for `n < 0x10000`: exactly four uppercase
hexadecimal digits, zero padded.  (The CRC register is always `< 0x10000`,
see `calculate_crc16_lt`.) -/
def hex4 (n : Nat) : String :=
  String.mk [hexDigit (n / 4096 % 16), hexDigit (n / 256 % 16),
             hexDigit (n / 16 % 16), hexDigit (n % 16)]

/-- Value of one hexadecimal digit character (`'0'..'9'`, `'A'..'F'`). -/
def hexVal (c : Char) : Nat :=
  if 65 ≤ c.toNat then c.toNat - 55 else c.toNat - 48

/-- A hexadecimal digit string read as a number (most significant first),
as Python's `int(s, 16)` does on the strings produced here. -/
def hexStrToNat (s : String) : Nat := s.data.foldl (fun n c => 16 * n + hexVal c) 0

/-- Python `s[:n]`: the first `n` characters (code points) of `s`. -/
def strTake (s : String) (n : Nat) : String := String.mk (s.data.take n)

/-- Python's `f"{amount:.2f}"`: the amount rounded to a whole number of
cents (`⌊q·100 + 1/2⌋`) and printed with exactly two digits after the
decimal point.  For every amount appearing in this development the value is
exact, so the rounding mode is immaterial. -/
def formatAmount (q : ℚ) : String :=
  let cents : ℤ := ⌊q * 100 + 1 / 2⌋
  let a : Nat := cents.natAbs
  (if cents < 0 then "-" else "") ++ Nat.repr (a / 100) ++ "." ++ pad2 (a % 100)

/-- The GUI constant of the merchant-account-information group
(itself a rendered sub-field: tag "00", length "14", value "BR.GOV.BCB.PIX"). -/
def gui : String := "0014BR.GOV.BCB.PIX"

/-- The payee-key sub-field `key_field = f"01{len(cpf_formatted):02d}{cpf_formatted}"`. -/
def key_field (cpf_formatted : String) : String :=
  "01" ++ pad2 cpf_formatted.length ++ cpf_formatted

/-- The description sub-field `desc_field`: empty when `description` is falsy, otherwise
`f"02{len(description_clean):02d}{description_clean}"` with
`description_clean = description[:25]`. -/
def desc_field (description : String) : String :=
  if description = "" then ""
  else "02" ++ pad2 (strTake description 25).length ++ strTake description 25

/-- The group value `merchant_info = gui + key_field + desc_field`. -/
def merchant_info (cpf description : String) : String :=
  gui ++ key_field (format_cpf cpf) ++ desc_field description

/-- The transaction-amount fragment: `f"54{len(amount_str):02d}{amount_str}"`
when `amount > 0`, nothing otherwise. -/
def amount_field (amount : ℚ) : String :=
  if 0 < amount then
    "54" ++ pad2 (formatAmount amount).length ++ formatAmount amount
  else ""

/-- The merchant-name fragment:
`f"59{len(merchant_name_clean):02d}{merchant_name_clean}"` with
`merchant_name_clean = merchant_name[:25]`. -/
def name_field (merchant_name : String) : String :=
  "59" ++ pad2 (strTake merchant_name 25).length ++ strTake merchant_name 25

/-- The merchant-city fragment:
`f"60{len(merchant_city_clean):02d}{merchant_city_clean}"` with
`merchant_city_clean = merchant_city[:15]`. -/
def city_field (merchant_city : String) : String :=
  "60" ++ pad2 (strTake merchant_city 15).length ++ strTake merchant_city 15

/-- The constant `additional_data = "0503***"` (a rendered sub-field: tag "05",
length "03", value "***"). -/
def additional_data : String := "0503***"

/-- Everything `generate_pix_payload` concatenates before computing the CRC,
including the final literal `"6304"` — a line-by-line transliteration of the
`payload = ... ; payload += ...` sequence of the source. -/
def payload_body (cpf : String) (amount : ℚ)
    (description merchant_name merchant_city : String) : String :=
  "00020" ++ "126"
    ++ (pad2 (merchant_info cpf description).length ++ merchant_info cpf description)
    ++ "52040000"
    ++ "5303986"
    ++ amount_field amount
    ++ "5802BR"
    ++ name_field merchant_name
    ++ city_field merchant_city
    ++ ("62" ++ pad2 additional_data.length ++ additional_data)
    ++ "6304"

/-- Function `generate_pix_payload` from the source (called `build_payload` in the
specification): the body followed by the CRC16 of the body rendered as four
uppercase hexadecimal digits. -/
def build_payload (cpf : String) (amount : ℚ)
    (description : String := "Presente de Casamento")
    (merchant_name : String := "Lista de Presentes")
    (merchant_city : String := "SAO PAULO") : String :=
  payload_body cpf amount description merchant_name merchant_city
    ++ hex4 (calculate_crc16 (payload_body cpf amount description merchant_name merchant_city))

/-- Every TLV field of the generated payload as a `(tag, value)` pair, in
payload order, nested sub-fields included.  For the dynamically built fields
the declared length prefix in the payload is `pad2 value.length` (Python's
`f"{len(value):02d}"`); for the fixed fields the two length digits are part
of the literal the source appends and are listed here with the value they
declare.  The leading literal `"00020" + "126"` is the field `"000201"`
(tag "00", length "02", value "01") followed by the tag "26" of the
merchant-account-information field. -/
def payload_fields (cpf : String) (amount : ℚ)
    (description merchant_name merchant_city : String) : List (String × String) :=
  [("00", "01"),
   ("26", merchant_info cpf description),
   ("00", "BR.GOV.BCB.PIX"),
   ("01", format_cpf cpf)]
  ++ (if description = "" then [] else [("02", strTake description 25)])
  ++ [("52", "0000"), ("53", "986")]
  ++ (if 0 < amount then [("54", formatAmount amount)] else [])
  ++ [("58", "BR"),
      ("59", strTake merchant_name 25),
      ("60", strTake merchant_city 15),
      ("62", additional_data),
      ("05", "***"),
      ("63", hex4 (calculate_crc16 (payload_body cpf amount description merchant_name merchant_city)))]

/-- The payload with its trailing four checksum characters removed
(Python `payload[:-4]`). -/
def stripChecksum (P : String) : String := String.mk (P.data.take (P.data.length - 4))

/-- The trailing four checksum characters of the payload (Python `payload[-4:]`). -/
def checksumTail (P : String) : String := String.mk (P.data.drop (P.data.length - 4))

/-! ### Basic string and arithmetic lemmas -/

theorem sdata_ext {a b : String} (h : a.data = b.data) : a = b := by
  cases a; cases b; exact congrArg String.mk h

theorem data_append (a b : String) : (a ++ b).data = a.data ++ b.data := by
  cases a; cases b; rfl

theorem smk_data (s : String) : String.mk s.data = s := by
  cases s; rfl

theorem str_append_assoc (a b c : String) : a ++ b ++ c = a ++ (b ++ c) := by
  apply sdata_ext
  simp [data_append, List.append_assoc]

theorem crc_shift_lt (x : Nat) : crc_shift x < 65536 :=
  Nat.lt_of_le_of_lt (Nat.and_le_right) (by norm_num)

theorem crc_byte_lt (c b : Nat) : crc_byte c b < 65536 := by
  have h : crc_byte c b
      = crc_shift ((List.range 7).foldl (fun c _ => crc_shift c) (c ^^^ (b <<< 8))) := by
    simp [crc_byte, List.range_succ]
  rw [h]
  exact crc_shift_lt _

theorem foldl_crc_lt (l : List Nat) (c : Nat) (h : c < 65536) :
    l.foldl crc_byte c < 65536 := by
  induction l generalizing c with
  | nil => simpa using h
  | cons b t ih => simpa using ih (crc_byte c b) (crc_byte_lt c b)

theorem calculate_crc16_lt (s : String) : calculate_crc16 s < 65536 :=
  foldl_crc_lt _ _ (by norm_num)

theorem hexVal_hexDigit : ∀ k, k < 16 → hexVal (hexDigit k) = k := by decide

theorem hex4_parse (n : Nat) (h : n < 65536) : hexStrToNat (hex4 n) = n := by
  have h1 := hexVal_hexDigit (n / 4096 % 16) (Nat.mod_lt _ (by norm_num))
  have h2 := hexVal_hexDigit (n / 256 % 16) (Nat.mod_lt _ (by norm_num))
  have h3 := hexVal_hexDigit (n / 16 % 16) (Nat.mod_lt _ (by norm_num))
  have h4 := hexVal_hexDigit (n % 16) (Nat.mod_lt _ (by norm_num))
  simp only [hexStrToNat, hex4, List.foldl, h1, h2, h3, h4]
  omega

theorem hex4_data_length (n : Nat) : (hex4 n).data.length = 4 := rfl

theorem pad2_len_two : ∀ n, n < 100 → (pad2 n).length = 2 := by decide

/-- Below 128, Python's `str.isdigit` accepts exactly the ASCII digits. -/
theorem pyIsDigitNat_ascii :
    ∀ n, n < 128 → pyIsDigitNat n = (decide (48 ≤ n) && decide (n ≤ 57)) := by decide

theorem pyIsDigit_ascii (c : Char) (h : c.toNat < 128) : pyIsDigit c = c.isDigit := by
  have hn := pyIsDigitNat_ascii c.toNat h
  unfold pyIsDigit
  rw [hn]
  rfl

/-- On a list of ASCII characters the UTF-8 encoding has one byte per
character. -/
theorem flatten_utf8_ascii :
    ∀ l : List Char, (∀ c ∈ l, c.toNat < 128) →
      ((l.map utf8Bytes).flatten).length = l.length := by
  intro l h
  induction l with
  | nil => rfl
  | cons c t ih =>
    have hc : c.toNat < 128 := h c (by simp)
    have ht : ∀ x ∈ t, x.toNat < 128 := fun x hx => h x (by simp [hx])
    simp [utf8Bytes, hc, ih ht]

/-! ### Decomposition of the generated payload -/

/-- The payload splits around the merchant-name and merchant-city fields. -/
theorem build_split_name_city (c : String) (q : ℚ) (d n ci : String) :
    build_payload c q d n ci =
      ("00020" ++ "126"
        ++ (pad2 (merchant_info c d).length ++ merchant_info c d)
        ++ "52040000" ++ "5303986" ++ amount_field q ++ "5802BR")
      ++ name_field n ++ city_field ci
      ++ (("62" ++ pad2 additional_data.length ++ additional_data) ++ "6304"
          ++ hex4 (calculate_crc16 (payload_body c q d n ci))) := by
  apply sdata_ext
  simp [build_payload, payload_body, data_append, List.append_assoc]

/-- The payload splits around the transaction-amount fragment. -/
theorem build_split_amount (c : String) (q : ℚ) (d n ci : String) :
    build_payload c q d n ci =
      ("00020" ++ "126"
        ++ (pad2 (merchant_info c d).length ++ merchant_info c d)
        ++ "52040000" ++ "5303986")
      ++ amount_field q
      ++ ("5802BR" ++ name_field n ++ city_field ci
          ++ ("62" ++ pad2 additional_data.length ++ additional_data) ++ "6304"
          ++ hex4 (calculate_crc16 (payload_body c q d n ci))) := by
  apply sdata_ext
  simp [build_payload, payload_body, data_append, List.append_assoc]

/-- The payload starts with the eight characters `"00020126"`. -/
theorem build_prefix8 (c : String) (q : ℚ) (d n ci : String) :
    build_payload c q d n ci =
      "00020126"
      ++ (pad2 (merchant_info c d).length ++ merchant_info c d
          ++ "52040000" ++ "5303986" ++ amount_field q ++ "5802BR"
          ++ name_field n ++ city_field ci
          ++ ("62" ++ pad2 additional_data.length ++ additional_data) ++ "6304"
          ++ hex4 (calculate_crc16 (payload_body c q d n ci))) := by
  have h : ("00020126" : String) = "00020" ++ "126" := by decide
  rw [h]
  apply sdata_ext
  simp [build_payload, payload_body, data_append, List.append_assoc]

/-- The payload body ends with the literal checksum prefix `"6304"`. -/
theorem payload_body_ends_6304 (c : String) (q : ℚ) (d n ci : String) :
    ∃ X, payload_body c q d n ci = X ++ "6304" :=
  ⟨_, rfl⟩

theorem slength (s : String) : s.length = s.data.length := by
  cases s; rfl

/-! ### Evaluation of the amount formatting on concrete rationals -/

theorem formatAmount_eval (q : ℚ) (n : ℕ) (h : ⌊q * 100 + 1 / 2⌋ = (n : ℤ)) :
    formatAmount q = Nat.repr (n / 100) ++ "." ++ pad2 (n % 100) := by
  have hneg : ¬ ((n : ℤ) < 0) := not_lt.mpr (Int.natCast_nonneg n)
  simp only [formatAmount]
  rw [h, if_neg hneg]
  apply sdata_ext
  simp [data_append, Int.natAbs_ofNat, show ("" : String).data = [] from rfl]

theorem formatAmount_250 : formatAmount 250 = "250.00" := by
  rw [formatAmount_eval 250 25000 (by rw [Int.floor_eq_iff]; norm_num)]
  decide

theorem amount_field_250 : amount_field 250 = "5406250.00" := by
  unfold amount_field
  rw [if_pos (by norm_num : (0 : ℚ) < 250), formatAmount_250]
  decide

theorem amount_field_nonpos (q : ℚ) (h : q ≤ 0) : amount_field q = "" := by
  unfold amount_field
  rw [if_neg (not_lt.mpr h)]

theorem payload_body_nonpos (c : String) (q : ℚ) (d n ci : String) (h : q ≤ 0) :
    payload_body c q d n ci
      = "00020" ++ "126"
        ++ (pad2 (merchant_info c d).length ++ merchant_info c d)
        ++ "52040000" ++ "5303986" ++ "5802BR"
        ++ name_field n ++ city_field ci
        ++ ("62" ++ pad2 additional_data.length ++ additional_data) ++ "6304" := by
  apply sdata_ext
  simp [payload_body, amount_field_nonpos q h, data_append, List.append_assoc,
        show ("" : String).data = [] from rfl]

theorem build_payload_nonpos (c : String) (q : ℚ) (d n ci : String) (h : q ≤ 0) :
    build_payload c q d n ci
      = ("00020" ++ "126"
          ++ (pad2 (merchant_info c d).length ++ merchant_info c d)
          ++ "52040000" ++ "5303986" ++ "5802BR"
          ++ name_field n ++ city_field ci
          ++ ("62" ++ pad2 additional_data.length ++ additional_data) ++ "6304")
        ++ hex4 (calculate_crc16
            ("00020" ++ "126"
              ++ (pad2 (merchant_info c d).length ++ merchant_info c d)
              ++ "52040000" ++ "5303986" ++ "5802BR"
              ++ name_field n ++ city_field ci
              ++ ("62" ++ pad2 additional_data.length ++ additional_data) ++ "6304")) := by
  unfold build_payload
  rw [payload_body_nonpos c q d n ci h]

theorem payload_fields_nonpos (c : String) (q : ℚ) (d n ci : String) (h : q ≤ 0) :
    payload_fields c q d n ci
      = [("00", "01"), ("26", merchant_info c d), ("00", "BR.GOV.BCB.PIX"), ("01", format_cpf c)]
        ++ (if d = "" then [] else [("02", strTake d 25)])
        ++ [("52", "0000"), ("53", "986")]
        ++ [("58", "BR"), ("59", strTake n 25), ("60", strTake ci 15), ("62", additional_data), ("05", "***"),
            ("63", hex4 (calculate_crc16
              ("00020" ++ "126"
                ++ (pad2 (merchant_info c d).length ++ merchant_info c d)
                ++ "52040000" ++ "5303986" ++ "5802BR"
                ++ name_field n ++ city_field ci
                ++ ("62" ++ pad2 additional_data.length ++ additional_data) ++ "6304")))] := by
  have h0 : ¬ (0 < q) := not_lt.mpr h
  simp [payload_fields, h0, payload_body_nonpos c q d n ci h]

/-! ### The claims -/

/-- C3: `compute_checksum` implements CRC16/CCITT-FALSE — register starts at
0xFFFF, each UTF-8 byte is XORed into the high 8 bits, eight shift steps with
conditional XOR of the polynomial 0x1021 and a 16-bit mask, no final XOR
(which is the definition of `calculate_crc16`); on the reference vector
`calculate_crc16 "123456789" = 0x29B1`, and the register always stays below
2^16. -/
theorem crc16_ccitt_false_spec :
    calculate_crc16 "123456789" = 0x29B1 ∧ ∀ s : String, calculate_crc16 s < 65536 :=
  ⟨by decide, calculate_crc16_lt⟩

/-- C9 counterexample: the superscript two is kept by `format_cpf` although it
is not a decimal digit — Python's `str.isdigit` accepts it — so `format_cpf`
does not strip every character that is not a decimal digit, and its output is
not the decimal-digit filter of its input. -/
theorem format_cpf_superscript_cex :
    format_cpf "²" = "²"
    ∧ ('²'.isDigit = false)
    ∧ ¬ ((format_cpf "²").data = "²".data.filter Char.isDigit) := by
  refine ⟨by decide, by decide, by decide⟩

/-- C9 amended: `format_cpf` keeps, in order, exactly the characters Python's
`str.isdigit` accepts (Unicode digit-typed characters, `pyIsDigit`); its
output is always an order-preserving subsequence of the input, and on inputs
consisting of ASCII characters only — every payee id actually used — the kept
characters are exactly the decimal digits `'0'`–`'9'`, so the reference input
`"131.134.976-63"` normalizes to `"13113497663"`. -/
theorem format_cpf_filter_spec :
    format_cpf "131.134.976-63" = "13113497663"
    ∧ (∀ s : String, (format_cpf s).data = s.data.filter pyIsDigit)
    ∧ (∀ s : String, List.Sublist (format_cpf s).data s.data)
    ∧ (∀ s : String, (∀ ch ∈ s.data, ch.toNat < 128) →
        (format_cpf s).data = s.data.filter Char.isDigit) :=
  ⟨by decide, fun _ => rfl, fun s => List.filter_sublist s.data,
   fun s h => List.filter_congr (fun c hc => pyIsDigit_ascii c (h c hc))⟩

/-- Witness for `format_cpf_filter_spec` at the reference input, whose
characters are all ASCII. -/
theorem format_cpf_filter_spec_witness :
    (format_cpf "131.134.976-63").data
      = ("131.134.976-63" : String).data.filter Char.isDigit :=
  format_cpf_filter_spec.2.2.2 "131.134.976-63" (by decide)

/-- C2: stripping the trailing four checksum characters from any generated
payload leaves a string that still ends with `"6304"`, and the CRC16 of that
stripped string equals the removed four digits read as a hexadecimal
number. -/
theorem checksum_self_consistent (c : String) (q : ℚ) (d n ci : String) :
    calculate_crc16 (stripChecksum (build_payload c q d n ci))
      = hexStrToNat (checksumTail (build_payload c q d n ci))
    ∧ "6304".data <:+ (stripChecksum (build_payload c q d n ci)).data := by
  have hdata : (build_payload c q d n ci).data
      = (payload_body c q d n ci).data
        ++ (hex4 (calculate_crc16 (payload_body c q d n ci))).data := by
    rw [show build_payload c q d n ci
          = payload_body c q d n ci
            ++ hex4 (calculate_crc16 (payload_body c q d n ci)) from rfl, data_append]
  have hlen4 : (hex4 (calculate_crc16 (payload_body c q d n ci))).data.length = 4 := rfl
  have hstrip : stripChecksum (build_payload c q d n ci) = payload_body c q d n ci := by
    unfold stripChecksum
    rw [hdata, List.length_append, hlen4, Nat.add_sub_cancel, List.take_left, smk_data]
  have htail : checksumTail (build_payload c q d n ci)
      = hex4 (calculate_crc16 (payload_body c q d n ci)) := by
    unfold checksumTail
    rw [hdata, List.length_append, hlen4, Nat.add_sub_cancel, List.drop_left, smk_data]
  refine ⟨?_, ?_⟩
  · rw [hstrip, htail, hex4_parse _ (calculate_crc16_lt _)]
  · rw [hstrip]
    obtain ⟨X, hX⟩ := payload_body_ends_6304 c q d n ci
    rw [hX, data_append]
    exact ⟨X.data, rfl⟩

/-- C4 counterexample: at the source's own example input the literal
`"010212"` does not follow the payload-format-indicator field (it is neither
at character offset 6, after the six-character field `"000201"`, nor at
offset 5, after the five-character constant `"00020"` the specification
describes), and it does not occur anywhere in the pre-checksum payload at
all. -/
theorem poi_literal_absent_cex :
    ((build_payload "13113497663" 250 "Air Fryer" "Lista de Presentes" "SAO PAULO").data.drop 6).take 6
        ≠ "010212".data
    ∧ ((build_payload "13113497663" 250 "Air Fryer" "Lista de Presentes" "SAO PAULO").data.drop 5).take 6
        ≠ "010212".data
    ∧ ¬ ("010212".data
          <:+: (payload_body "13113497663" 250 "Air Fryer" "Lista de Presentes" "SAO PAULO").data) := by
  have h54 := amount_field_250
  refine ⟨?_, ?_, ?_⟩ <;>
    · simp only [build_payload, payload_body, h54]
      decide

/-- C4 amended: for every input the payload begins with the eight characters
`"00020126"` — the payload-format-indicator field `"000201"` (tag "00",
length "02", value "01") followed immediately by the tag "26" of the
merchant-account-information field; the literals `"00020"` and `"126"` the
source appends amount to exactly this, and no point-of-initiation-method
field (tag "01", value "12") is emitted. -/
theorem payload_prefix_00020126 (c : String) (q : ℚ) (d n ci : String) :
    (build_payload c q d n ci).data.take 8 = "00020126".data := by
  rw [build_prefix8, data_append]
  exact List.take_left' rfl

/-- C1 counterexample: with the one-character description `"é"` (two UTF-8
bytes), the declared length of the description sub-field — `len` of the value,
a character count — is 1, but the UTF-8 byte length of the value is 2, so the
declared length is not the byte length of the value. -/
theorem length_prefix_bytes_cex :
    ¬ (∀ p ∈ payload_fields "13113497663" 0 "é" "Lista de Presentes" "SAO PAULO",
        p.2.length = utf8Len p.2) := by
  intro h
  have hm : (("02", "é") : String × String)
      ∈ payload_fields "13113497663" 0 "é" "Lista de Presentes" "SAO PAULO" := by
    rw [payload_fields_nonpos _ _ _ _ _ (le_refl 0)]
    decide
  exact absurd (h _ hm) (by decide)

/-- C1 amended: the declared 2-digit length of every field is the *character*
count of its value (Python `len`); this equals the UTF-8 byte length of the
value whenever the value consists of ASCII characters only — so the claimed
byte-length property holds exactly for ASCII values and fails for values with
multi-byte characters. -/
theorem length_prefix_ascii (c : String) (q : ℚ) (d n ci : String) :
    ∀ p ∈ payload_fields c q d n ci,
      (∀ ch ∈ p.2.data, ch.toNat < 128) → utf8Len p.2 = p.2.length := by
  intro p _ h
  rw [slength]
  exact flatten_utf8_ascii p.2.data h

/-- Witness for `length_prefix_ascii` at the country-code field of a concrete
payload. -/
theorem length_prefix_ascii_witness : utf8Len "BR" = ("BR" : String).length :=
  length_prefix_ascii "13113497663" 0 "Air Fryer" "Lista de Presentes" "SAO PAULO"
    ("58", "BR")
    (by rw [payload_fields_nonpos _ _ _ _ _ (le_refl 0)]; decide)
    (by decide)

/-- C5: the transaction-amount field is present iff the amount is strictly
positive — for `amount ≤ 0` the fragment is empty, for `amount > 0` it is
tag "54", the 2-digit length, and the amount rendered with exactly two digits
after the decimal point; the payload always decomposes around exactly this
fragment, and for amount 250 the payload contains the substring
`"5406250.00"`. -/
theorem amount_field_iff_positive (c : String) (d n ci : String) (q : ℚ) :
    (q ≤ 0 → amount_field q = "")
    ∧ (0 < q → amount_field q = "54" ++ pad2 (formatAmount q).length ++ formatAmount q)
    ∧ (∃ pre post, build_payload c q d n ci = pre ++ amount_field q ++ post)
    ∧ (∃ b, b < 100 ∧ ∃ ip, formatAmount q = ip ++ "." ++ pad2 b ∧ (pad2 b).length = 2)
    ∧ (∃ pre post, build_payload c 250 d n ci = pre ++ "5406250.00" ++ post) := by
  refine ⟨amount_field_nonpos q,
    fun h => by unfold amount_field; rw [if_pos h],
    ⟨_, _, build_split_amount c q d n ci⟩, ?_, ?_⟩
  · refine ⟨(⌊q * 100 + 1 / 2⌋ : ℤ).natAbs % 100, Nat.mod_lt _ (by norm_num),
      (if (⌊q * 100 + 1 / 2⌋ : ℤ) < 0 then "-" else "")
        ++ Nat.repr ((⌊q * 100 + 1 / 2⌋ : ℤ).natAbs / 100), ?_,
      pad2_len_two _ (Nat.mod_lt _ (by norm_num))⟩
    rfl
  · exact ⟨_, _, amount_field_250 ▸ build_split_amount c 250 d n ci⟩

/-- Witness for `amount_field_iff_positive`: the non-positive amount −1 gives
an empty fragment, the positive amount 1 a rendered field. -/
theorem amount_field_iff_positive_witness :
    amount_field (-1) = ""
    ∧ amount_field 1 = "54" ++ pad2 (formatAmount 1).length ++ formatAmount 1 :=
  ⟨(amount_field_iff_positive "1" "d" "n" "c" (-1)).1 (by norm_num),
   (amount_field_iff_positive "1" "d" "n" "c" 1).2.1 (by norm_num)⟩

/-- C6 counterexample: a payee id of 100 digits (more than 99 bytes even
after normalization) does not make `build_payload` signal anything — the
rendered length prefix of the payee-key sub-field is the three-digit string
`"100"`, so the declared-length invariant (`f"{...:02d}"` yields 2 digits)
is silently violated rather than reported. -/
theorem field_too_long_cex :
    (¬ ∀ p ∈ payload_fields (String.mk (List.replicate 100 '1')) 0 "" "" "",
        (pad2 p.2.length).length = 2)
    ∧ pad2 (format_cpf (String.mk (List.replicate 100 '1'))).length = "100" := by
  constructor
  · intro h
    have hm : (("01", format_cpf (String.mk (List.replicate 100 '1'))) : String × String)
        ∈ payload_fields (String.mk (List.replicate 100 '1')) 0 "" "" "" := by
      rw [payload_fields_nonpos _ _ _ _ _ (le_refl 0)]
      decide
    exact absurd (h _ hm) (by decide)
  · decide

/-- C6 amended: for every field whose value is at most 99 characters the
rendered length prefix has exactly 2 digits; the 99-byte cap is not checked
anywhere, and an overlong value (see the counterexample) silently produces a
longer prefix instead of an error. -/
theorem length_prefix_two_digits_upto99 (c : String) (q : ℚ) (d n ci : String) :
    ∀ p ∈ payload_fields c q d n ci, p.2.length ≤ 99 → (pad2 p.2.length).length = 2 := by
  intro p _ h
  exact pad2_len_two _ (Nat.lt_succ_of_le h)

/-- Witness for `length_prefix_two_digits_upto99` at the country-code field
of a concrete payload. -/
theorem length_prefix_two_digits_upto99_witness :
    (pad2 ("BR" : String).length).length = 2 :=
  length_prefix_two_digits_upto99 "13113497663" 0 "Air Fryer" "Lista de Presentes" "SAO PAULO"
    ("58", "BR")
    (by rw [payload_fields_nonpos _ _ _ _ _ (le_refl 0)]; decide)
    (by decide)

/-- C7 counterexample: the amount −1 is not a finite non-negative number, yet
`build_payload` signals nothing: it returns the same well-formed payload as
amount 0 (transaction-amount field omitted), still starting with the normal
`"00020126"` prefix — there is no `InvalidAmount` error path in the code. -/
theorem negative_amount_no_error_cex :
    build_payload "13113497663" (-1) "Air Fryer" "Lista de Presentes" "SAO PAULO"
      = build_payload "13113497663" 0 "Air Fryer" "Lista de Presentes" "SAO PAULO"
    ∧ (build_payload "13113497663" (-1) "Air Fryer" "Lista de Presentes" "SAO PAULO").data.take 8
      = "00020126".data := by
  have h1 := build_payload_nonpos "13113497663" (-1) "Air Fryer" "Lista de Presentes"
    "SAO PAULO" (by norm_num)
  have h0 := build_payload_nonpos "13113497663" 0 "Air Fryer" "Lista de Presentes"
    "SAO PAULO" (le_refl 0)
  refine ⟨h1.trans h0.symm, ?_⟩
  rw [h1, data_append]
  decide

/-- C7 amended: `build_payload` is a total function that never signals an
error for any rational amount; an amount that is not positive — including
every negative amount — simply yields the payload with the transaction-amount
field omitted, identical to the amount-0 payload (non-finite and non-numeric
Python values have no counterpart in this numeric model). -/
theorem nonpositive_amount_omitted (c : String) (d n ci : String) (q : ℚ) (h : q ≤ 0) :
    amount_field q = "" ∧ build_payload c q d n ci = build_payload c 0 d n ci :=
  ⟨amount_field_nonpos q h,
   (build_payload_nonpos c q d n ci h).trans (build_payload_nonpos c 0 d n ci (le_refl 0)).symm⟩

/-- Witness for `nonpositive_amount_omitted` at amount −1. -/
theorem nonpositive_amount_omitted_witness :
    amount_field (-1) = ""
    ∧ build_payload "1" (-1) "d" "n" "c" = build_payload "1" 0 "d" "n" "c" :=
  nonpositive_amount_omitted "1" "d" "n" "c" (-1) (by norm_num)

/-- C8: the values embedded in the payload are the caller strings cut to
fixed prefixes — description to its first 25 characters (when non-empty),
merchant name to 25, merchant city to 15 — and the payload decomposes around
exactly these rendered fields. -/
theorem truncation_fixed_prefixes (c : String) (q : ℚ) (d n ci : String) :
    name_field n = "59" ++ pad2 (strTake n 25).length ++ strTake n 25
    ∧ city_field ci = "60" ++ pad2 (strTake ci 15).length ++ strTake ci 15
    ∧ (d ≠ "" → desc_field d = "02" ++ pad2 (strTake d 25).length ++ strTake d 25)
    ∧ (∃ pre, merchant_info c d = pre ++ desc_field d)
    ∧ (∃ pre post, build_payload c q d n ci = pre ++ name_field n ++ city_field ci ++ post) := by
  refine ⟨rfl, rfl, fun h => by unfold desc_field; rw [if_neg h],
    ⟨gui ++ key_field (format_cpf c), rfl⟩, ?_⟩
  exact ⟨_, _, build_split_name_city c q d n ci⟩

/-- Witness for `truncation_fixed_prefixes`: a 40-character description is
embedded as its first 25 characters. -/
theorem truncation_fixed_prefixes_witness :
    desc_field "0123456789012345678901234567890123456789"
      = "02" ++ pad2 (strTake "0123456789012345678901234567890123456789" 25).length
        ++ strTake "0123456789012345678901234567890123456789" 25 :=
  (truncation_fixed_prefixes "1" 0 "0123456789012345678901234567890123456789" "n" "c").2.2.1
    (by decide)

/-- C10: the merchant-name and merchant-city fields are emitted for every
input — with empty arguments they are the four-character fields `"5900"` and
`"6000"` (length "00", empty value) and the payload still contains them —
whereas an empty description makes the description sub-field disappear
entirely, leaving the merchant-account-information group with only the GUI
and payee-key sub-fields. -/
theorem name_city_always_present (c : String) (q : ℚ) (d : String) :
    name_field "" = "5900" ∧ city_field "" = "6000" ∧ desc_field "" = ""
    ∧ merchant_info c "" = gui ++ key_field (format_cpf c)
    ∧ (∀ n ci, ∃ pre post, build_payload c q d n ci = pre ++ name_field n ++ city_field ci ++ post)
    ∧ (∃ pre post, build_payload c q d "" "" = pre ++ "5900" ++ ("6000" ++ post)) := by
  have h59 : name_field "" = "5900" := by decide
  have h60 : city_field "" = "6000" := by decide
  refine ⟨h59, h60, rfl, ?_,
    fun n ci => ⟨_, _, build_split_name_city c q d n ci⟩, ?_⟩
  · apply sdata_ext
    simp [merchant_info, desc_field, data_append]
  · have hs := build_split_name_city c q d "" ""
    rw [h59, h60] at hs
    exact ⟨_, _, hs.trans (str_append_assoc _ _ _)⟩
